import Mathlib

set_option maxRecDepth 8000

/-!
Shallow embedding of `src/XiaoWeather/src/main.cpp` (Arduino weather node:
BME280 sensor, SSD1306 display, WiFi + MQTT with Home Assistant discovery).

Machine floats are modelled as either NaN or an exact rational value; the
32-bit `millis()` clock is modelled as natural numbers with explicit
wrap-around subtraction mod 2^32.  Hardware and network effects are modelled
as an event list emitted by each loop iteration; the environment (WiFi
status, broker accept/reject, transport loss, sensor output, clock) is an
input to each iteration.
-/

namespace XiaoWeather

/-- A machine float abstracted as NaN or an exact rational value. -/
inductive FVal where
  | nan : FVal
  | num : ℚ → FVal
deriving DecidableEq

/-- Models the C `isnan` test. -/
def FVal.isNan : FVal → Bool
  | .nan => true
  | .num _ => false

/-- JSON values as assembled by ArduinoJson documents (keys keep insertion
order; numbers are carried already rendered). -/
inductive JVal where
  | jstr : String → JVal
  | jnum : String → JVal
  | jarr : List JVal → JVal
  | jobj : List (String × JVal) → JVal

mutual

/-- Models `serializeJson`: minified, insertion order, strings quoted. -/
def JVal.ser : JVal → String
  | .jstr s => "\"" ++ s ++ "\""
  | .jnum s => s
  | .jarr xs => "[" ++ serItems xs ++ "]"
  | .jobj kvs => "\x7b" ++ serFields kvs ++ "\x7d"

def serItems : List JVal → String
  | [] => ""
  | [v] => JVal.ser v
  | v :: w :: rest => JVal.ser v ++ "," ++ serItems (w :: rest)

def serFields : List (String × JVal) → String
  | [] => ""
  | [kv] => "\"" ++ kv.1 ++ "\":" ++ JVal.ser kv.2
  | kv :: kw :: rest => "\"" ++ kv.1 ++ "\":" ++ JVal.ser kv.2 ++ "," ++ serFields (kw :: rest)

end

/-- Key lookup in a JSON object (none on non-objects). -/
def JVal.lookupKey : JVal → String → Option JVal
  | .jobj kvs, k => kvs.lookup k
  | _, _ => none

/-- The string carried by a JSON string value. -/
def JVal.strVal : JVal → Option String
  | .jstr s => some s
  | _ => none

/-- Lookup of a string-valued key in a JSON object. -/
def lookupStr (v : JVal) (k : String) : Option String :=
  (v.lookupKey k).bind JVal.strVal

/-! ## Configuration constants (main.cpp lines 36-66) -/

def MQTT_USER : String := "ayush.chinmay"
def MQTT_PASSWORD : String := "1337x@#Ayush6901"
def DEVICE_NAME : String := "pc_xiaoc3_weather"
def DEVICE_FRIENDLY_NAME : String := "Desktop Station Weather"
-- the discovery root constant of the source configuration block
def MQTT_DISCOVERY_ROOT : String := "homeassistant"
def MQTT_STATE_TOPIC : String := "pc_xiaoc3_weather/state"
def MQTT_AVAILABILITY_TOPIC : String := "pc_xiaoc3_weather/availability"

/-! ## Timing (main.cpp lines 77-85): periods of the soft deadlines. -/

def oledDelay : Nat := 2000
def bmeDelay : Nat := 41
def mqttDelay : Nat := 10000
def wifiReconnectDelay : Nat := 30000

/-- Modulus 2^32 of the unsigned 32-bit `millis()` arithmetic. -/
def M32 : Nat := 4294967296

/-- Unsigned 32-bit subtraction `a - b` as computed on `unsigned long`. -/
def usub32 (a b : Nat) : Nat :=
  (a % M32 + (M32 - b % M32)) % M32

/-- The due-check used by the three loop deadlines (main.cpp lines 477, 483,
489): `millis() - t >= period || t == 0`. -/
def dueLoop (now t period : Nat) : Bool :=
  decide (period ≤ usub32 now t) || decide (t = 0)

/-- The due-check used by `checkWiFi` (main.cpp line 114):
`millis() - wifiReconnectTime >= wifiReconnectDelay` - no zero escape. -/
def dueWifi (now t period : Nat) : Bool :=
  decide (period ≤ usub32 now t)

/-! ## Rounding and state payload (publishSensorData, main.cpp lines 265-279) -/

/-- Floor of a rational, computed as floor division of numerator by
denominator (the denominator is positive). -/
def ratFloor (q : ℚ) : Int :=
  Int.fdiv q.num q.den

/-- The C `round` function: round half away from zero. -/
def roundQ (q : ℚ) : Int :=
  if 0 ≤ q then ratFloor (q + 1/2) else - ratFloor (-q + 1/2)

/-- Renders the value n/10 the way ArduinoJson prints the double
`round(x*10)/10.0`: no trailing `.0`, sign in front. -/
def fmtTenths (n : Int) : String :=
  let a := n.natAbs
  let sign := if n < 0 then "-" else ""
  if a % 10 = 0 then sign ++ toString (a / 10)
  else sign ++ toString (a / 10) ++ "." ++ toString (a % 10)

/-- One state-payload field: `round(x * 10) / 10.0` serialised by
ArduinoJson (NaN serialises as `null`). -/
def fmt1 : FVal → String
  | .nan => "null"
  | .num q => fmtTenths (roundQ (q * 10))

/-- The state JSON built by `publishSensorData`: exactly the three fields
temperature, humidity, pressure, in insertion order. -/
def statePayload (tempC humid pressure : FVal) : String :=
  "\x7b\"temperature\":" ++ fmt1 tempC ++ ",\"humidity\":" ++ fmt1 humid ++
    ",\"pressure\":" ++ fmt1 pressure ++ "\x7d"

/-! ## Discovery documents (publishDiscovery, main.cpp lines 157-229) -/

/-- The nested `device` object, identical in the three discovery payloads. -/
def deviceObj : JVal :=
  .jobj [("identifiers", .jarr [.jstr DEVICE_NAME]),
         ("name", .jstr DEVICE_FRIENDLY_NAME),
         ("model", .jstr "XIAO ESP32-C3 + BME280"),
         ("manufacturer", .jstr "Seeed Studio")]

/-- One discovery document; the three code blocks in `publishDiscovery`
differ only in name, unique_id, value_template, unit and device_class. -/
def discoveryDoc (nm uid vt unit devClass : String) : JVal :=
  .jobj [("device", deviceObj),
         ("name", .jstr nm),
         ("unique_id", .jstr uid),
         ("state_topic", .jstr MQTT_STATE_TOPIC),
         ("availability_topic", .jstr MQTT_AVAILABILITY_TOPIC),
         ("payload_available", .jstr "online"),
         ("payload_not_available", .jstr "offline"),
         ("value_template", .jstr vt),
         ("unit_of_measurement", .jstr unit),
         ("device_class", .jstr devClass),
         ("state_class", .jstr "measurement")]

def tempDoc : JVal :=
  discoveryDoc "Temperature" "xiao_weather_temperature"
    "\x7b\x7b value_json.temperature \x7d\x7d" "°C" "temperature"

def humidDoc : JVal :=
  discoveryDoc "Humidity" "xiao_weather_humidity"
    "\x7b\x7b value_json.humidity \x7d\x7d" "%" "humidity"

def pressDoc : JVal :=
  discoveryDoc "Pressure" "xiao_weather_pressure"
    "\x7b\x7b value_json.pressure \x7d\x7d" "hPa" "pressure"

/-- Discovery config topic root/sensor/DEVICE_NAME/key/config as built by snprintf. -/
def discTopic (key : String) : String :=
  MQTT_DISCOVERY_ROOT ++ "/sensor/" ++ DEVICE_NAME ++ "/" ++ key ++ "/config"

/-! ## Events and state -/

/-- Observable effects of the firmware, in program order. -/
inductive Ev where
  | pub (topic payload : String) (retained : Bool)
  | connect (clientId user pass : String) (will : Option (String × String))
  | disconnect
  | wifiBegin
  | drawBanner
  | drawReading (humid tempC pressure : FVal)
  | sleep (ms : Nat)
  | restart
deriving DecidableEq

/-- The mutable globals of main.cpp (lines 74-88) that the loop touches. -/
structure St where
  humid : FVal
  tempC : FVal
  pressure : FVal
  oledTime : Nat
  bmeTime : Nat
  mqttTime : Nat
  wifiReconnectTime : Nat
  mqttDiscoverySent : Bool
  mqttConnected : Bool
deriving DecidableEq

/-- Zero-initialised globals at boot (floats start at 0.0). -/
def st0 : St :=
  { humid := .num 0, tempC := .num 0, pressure := .num 0,
    oledTime := 0, bmeTime := 0, mqttTime := 0, wifiReconnectTime := 0,
    mqttDiscoverySent := false, mqttConnected := false }

/-- Environment of one loop iteration: the clock, WiFi status, whether a
broker connect attempt would be accepted, whether an established session
survived since the previous iteration, and the sensor output. -/
structure Env where
  now : Nat
  wifiUp : Bool
  connectOk : Bool
  stillConnected : Bool
  sHumid : FVal
  sTempC : FVal
  sPressure : FVal

/-! ## The functions of main.cpp -/

/-- main.cpp lines 112-121: WiFi re-association, cooldown-gated. -/
def checkWiFi (env : Env) (st : St) : St × List Ev :=
  if !env.wifiUp then
    if dueWifi env.now st.wifiReconnectTime wifiReconnectDelay then
      ({ st with wifiReconnectTime := env.now }, [.wifiBegin])
    else (st, [])
  else (st, [])

/-- main.cpp lines 157-229: guarded by mqttDiscoverySent, publishes the
three discovery configs retained and sets the flag. -/
def publishDiscovery (st : St) : St × List Ev :=
  if st.mqttDiscoverySent then (st, [])
  else
    ({ st with mqttDiscoverySent := true },
     [.pub (discTopic "temperature") tempDoc.ser true,
      .pub (discTopic "humidity") humidDoc.ser true,
      .pub (discTopic "pressure") pressDoc.ser true])

/-- main.cpp lines 231-263: one connection attempt with last-will
`offline`; on acceptance publish retained `online`, clear the discovery
latch and re-emit discovery.  No internal rate limiting. -/
def mqttReconnect (env : Env) (st : St) : St × List Ev :=
  if st.mqttConnected then (st, [])
  else if !env.wifiUp then (st, [])
  else if env.connectOk then
    let st1 : St := { st with mqttConnected := true, mqttDiscoverySent := false }
    let r := publishDiscovery st1
    (r.1,
     .connect DEVICE_NAME MQTT_USER MQTT_PASSWORD
        (some (MQTT_AVAILABILITY_TOPIC, "offline"))
       :: .pub MQTT_AVAILABILITY_TOPIC "online" true :: r.2)
  else
    (st, [.connect DEVICE_NAME MQTT_USER MQTT_PASSWORD
            (some (MQTT_AVAILABILITY_TOPIC, "offline"))])

/-- main.cpp lines 265-279: if the session is connected, publish the state
JSON retained.  There is no validity check on the reading. -/
def publishSensorData (st : St) : List Ev :=
  if !st.mqttConnected then []
  else [.pub MQTT_STATE_TOPIC (statePayload st.tempC st.humid st.pressure) true]

/-- main.cpp lines 322-363: if humidity or temperature is NaN (pressure is
not tested), draw the BME Error banner and delay 1000 ms; otherwise draw
the three-panel reading and flush. -/
def printBME (st : St) : List Ev :=
  if st.humid.isNan || st.tempC.isNan then
    [.drawBanner, .sleep 1000]
  else
    [.drawReading st.humid st.tempC st.pressure]

/-- main.cpp lines 366-370: copy the sensor output into the globals. -/
def readBME (env : Env) (st : St) : St :=
  { st with humid := env.sHumid, tempC := env.sTempC, pressure := env.sPressure }

/-- Transport loss since the previous iteration: the client notices a dead
connection, so its connected status drops when the environment says the
session did not survive. -/
def dropStage (env : Env) (st : St) : St :=
  { st with mqttConnected := st.mqttConnected && env.stillConnected }

/-- main.cpp lines 469-474: MQTT maintenance, only while WiFi is up. -/
def pumpStage (env : Env) (st : St) : St × List Ev :=
  if env.wifiUp then
    if !st.mqttConnected then mqttReconnect env st else (st, [])
  else (st, [])

/-- main.cpp lines 477-480: sensor-sample deadline. -/
def bmeStage (env : Env) (st : St) : St × List Ev :=
  if dueLoop env.now st.bmeTime bmeDelay then
    ({ readBME env st with bmeTime := env.now }, [])
  else (st, [])

/-- main.cpp lines 483-486: display-refresh deadline. -/
def oledStage (env : Env) (st : St) : St × List Ev :=
  if dueLoop env.now st.oledTime oledDelay then
    ({ st with oledTime := env.now }, printBME st)
  else (st, [])

/-- main.cpp lines 489-492: state-publish deadline. -/
def mqttStage (env : Env) (st : St) : St × List Ev :=
  if dueLoop env.now st.mqttTime mqttDelay then
    ({ st with mqttTime := env.now }, publishSensorData st)
  else (st, [])

/-- One iteration of `loop()` (main.cpp lines 464-493), with the stages in
source order, emitting the concatenated event list. -/
def loopStep (env : Env) (st : St) : St × List Ev :=
  let s0 := dropStage env st
  let r1 := checkWiFi env s0
  let r2 := pumpStage env r1.1
  let r3 := bmeStage env r2.1
  let r4 := oledStage env r3.1
  let r5 := mqttStage env r4.1
  (r5.1, r1.2 ++ r2.2 ++ r3.2 ++ r4.2 ++ r5.2)

/-- A run of the loop under a list of per-iteration environments; the trace
pairs each iteration clock value with the events it emitted. -/
def run (envs : List Env) (st : St) : St × List (Nat × List Ev) :=
  match envs with
  | [] => (st, [])
  | e :: rest =>
    let r := loopStep e st
    let rr := run rest r.1
    (rr.1, (e.now, r.2) :: rr.2)

/-! ## The boot-time MQTT reset path (main.cpp lines 124-155 and 413-448) -/

/-- resetMQTT (main.cpp lines 124-155): empty retained payloads to the
three current discovery configs, the three legacy discovery configs, the
state topic and the availability topic, then a 500 ms settle delay. -/
def resetMQTT : List Ev :=
  [.pub (discTopic "temperature") "" true,
   .pub (discTopic "humidity") "" true,
   .pub (discTopic "pressure") "" true,
   .pub (discTopic "temperature_f") "" true,
   .pub (discTopic "pressure_bar") "" true,
   .pub (discTopic "altitude") "" true,
   .pub MQTT_STATE_TOPIC "" true,
   .pub MQTT_AVAILABILITY_TOPIC "" true,
   .sleep 500]

/-- The reset branch of setup() (main.cpp lines 413-448): taken when the
boot button was low at boot and WiFi associated; a plain connect (no
last-will), and on acceptance the full reset, disconnect and reboot; on
rejection a failure screen delay and fall-through. -/
def setupResetPhase (btnLow wifiUp connectOk : Bool) : List Ev :=
  if btnLow && wifiUp then
    if connectOk then
      .connect DEVICE_NAME MQTT_USER MQTT_PASSWORD none
        :: resetMQTT ++ [.disconnect, .sleep 3000, .restart]
    else
      [.connect DEVICE_NAME MQTT_USER MQTT_PASSWORD none, .sleep 5000]
  else []

/-! ## Event classifiers used by the claims -/

def isPubEv : Ev → Bool
  | .pub _ _ _ => true
  | _ => false

def isDiscPub : Ev → Bool
  | .pub t _ _ =>
      (t == discTopic "temperature") || (t == discTopic "humidity") ||
        (t == discTopic "pressure")
  | _ => false

def isStatePub : Ev → Bool
  | .pub t _ _ => t == MQTT_STATE_TOPIC
  | _ => false

def isConnectEv : Ev → Bool
  | .connect _ _ _ _ => true
  | _ => false

def isDrawEv : Ev → Bool
  | .drawBanner => true
  | .drawReading _ _ _ => true
  | _ => false

/-- The Connecting-to-Connected edge happens in an iteration iff WiFi is
up, the session did not survive into this iteration (or never existed),
and the broker accepts the attempt. -/
def connEdge (env : Env) (st : St) : Bool :=
  env.wifiUp && !(st.mqttConnected && env.stillConnected) && env.connectOk

/-- Iteration clock values at which a broker connect attempt happened. -/
def attemptTimes (tr : List (Nat × List Ev)) : List Nat :=
  tr.filterMap (fun p => if p.2.any isConnectEv then some p.1 else none)

/-- true iff `needle` occurs contiguously inside `hay`. -/
def containsSeq (needle hay : List Char) : Bool :=
  match hay with
  | [] => needle.isEmpty
  | _ :: t => needle.isPrefixOf hay || containsSeq needle t

/-- Concrete environment constructor for witnesses. -/
def mkEnv (now : Nat) (wifiUp connectOk stillConnected : Bool)
    (h t p : FVal) : Env :=
  ⟨now, wifiUp, connectOk, stillConnected, h, t, p⟩

/-- Concrete state constructor for witnesses. -/
def mkSt (h t p : FVal) (oledT bmeT mqttT wifiT : Nat)
    (sent conn : Bool) : St :=
  ⟨h, t, p, oledT, bmeT, mqttT, wifiT, sent, conn⟩

/-! ## Topic comparison facts -/

theorem beq_avail_discT : (MQTT_AVAILABILITY_TOPIC == discTopic "temperature") = false := by decide

theorem beq_avail_discH : (MQTT_AVAILABILITY_TOPIC == discTopic "humidity") = false := by decide

theorem beq_avail_discP : (MQTT_AVAILABILITY_TOPIC == discTopic "pressure") = false := by decide

theorem beq_state_discT : (MQTT_STATE_TOPIC == discTopic "temperature") = false := by decide

theorem beq_state_discH : (MQTT_STATE_TOPIC == discTopic "humidity") = false := by decide

theorem beq_state_discP : (MQTT_STATE_TOPIC == discTopic "pressure") = false := by decide

theorem beq_discH_discT : (discTopic "humidity" == discTopic "temperature") = false := by decide

theorem beq_discP_discT : (discTopic "pressure" == discTopic "temperature") = false := by decide

theorem beq_discP_discH : (discTopic "pressure" == discTopic "humidity") = false := by decide

theorem beq_avail_state : (MQTT_AVAILABILITY_TOPIC == MQTT_STATE_TOPIC) = false := by decide

theorem beq_discT_state : (discTopic "temperature" == MQTT_STATE_TOPIC) = false := by decide

theorem beq_discH_state : (discTopic "humidity" == MQTT_STATE_TOPIC) = false := by decide

theorem beq_discP_state : (discTopic "pressure" == MQTT_STATE_TOPIC) = false := by decide

/-! ## Frame lemmas: which fields each loop stage touches -/

@[simp] theorem dropStage_humid (env : Env) (st : St) : (dropStage env st).humid = st.humid := rfl

@[simp] theorem dropStage_tempC (env : Env) (st : St) : (dropStage env st).tempC = st.tempC := rfl

@[simp] theorem dropStage_pressure (env : Env) (st : St) : (dropStage env st).pressure = st.pressure := rfl

@[simp] theorem dropStage_bmeTime (env : Env) (st : St) : (dropStage env st).bmeTime = st.bmeTime := rfl

@[simp] theorem dropStage_oledTime (env : Env) (st : St) : (dropStage env st).oledTime = st.oledTime := rfl

@[simp] theorem dropStage_mqttTime (env : Env) (st : St) : (dropStage env st).mqttTime = st.mqttTime := rfl

@[simp] theorem dropStage_wifiReconnectTime (env : Env) (st : St) :
    (dropStage env st).wifiReconnectTime = st.wifiReconnectTime := rfl

@[simp] theorem dropStage_mqttConnected (env : Env) (st : St) :
    (dropStage env st).mqttConnected = (st.mqttConnected && env.stillConnected) := rfl

@[simp] theorem checkWiFi_fst_humid (env : Env) (st : St) :
    ((checkWiFi env st).1).humid = st.humid := by
  unfold checkWiFi; repeat' split
  all_goals rfl

@[simp] theorem checkWiFi_fst_tempC (env : Env) (st : St) :
    ((checkWiFi env st).1).tempC = st.tempC := by
  unfold checkWiFi; repeat' split
  all_goals rfl

@[simp] theorem checkWiFi_fst_pressure (env : Env) (st : St) :
    ((checkWiFi env st).1).pressure = st.pressure := by
  unfold checkWiFi; repeat' split
  all_goals rfl

@[simp] theorem checkWiFi_fst_bmeTime (env : Env) (st : St) :
    ((checkWiFi env st).1).bmeTime = st.bmeTime := by
  unfold checkWiFi; repeat' split
  all_goals rfl

@[simp] theorem checkWiFi_fst_oledTime (env : Env) (st : St) :
    ((checkWiFi env st).1).oledTime = st.oledTime := by
  unfold checkWiFi; repeat' split
  all_goals rfl

@[simp] theorem checkWiFi_fst_mqttTime (env : Env) (st : St) :
    ((checkWiFi env st).1).mqttTime = st.mqttTime := by
  unfold checkWiFi; repeat' split
  all_goals rfl

@[simp] theorem checkWiFi_fst_mqttConnected (env : Env) (st : St) :
    ((checkWiFi env st).1).mqttConnected = st.mqttConnected := by
  unfold checkWiFi; repeat' split
  all_goals rfl

@[simp] theorem checkWiFi_fst_wifiReconnectTime (env : Env) (st : St) :
    ((checkWiFi env st).1).wifiReconnectTime =
      if (!env.wifiUp && dueWifi env.now st.wifiReconnectTime wifiReconnectDelay) = true
      then env.now else st.wifiReconnectTime := by
  unfold checkWiFi
  cases hw : env.wifiUp
  · simp
    split <;> simp_all
  · simp

@[simp] theorem pumpStage_fst_humid (env : Env) (st : St) :
    ((pumpStage env st).1).humid = st.humid := by
  unfold pumpStage mqttReconnect publishDiscovery; repeat' split
  all_goals rfl

@[simp] theorem pumpStage_fst_tempC (env : Env) (st : St) :
    ((pumpStage env st).1).tempC = st.tempC := by
  unfold pumpStage mqttReconnect publishDiscovery; repeat' split
  all_goals rfl

@[simp] theorem pumpStage_fst_pressure (env : Env) (st : St) :
    ((pumpStage env st).1).pressure = st.pressure := by
  unfold pumpStage mqttReconnect publishDiscovery; repeat' split
  all_goals rfl

@[simp] theorem pumpStage_fst_bmeTime (env : Env) (st : St) :
    ((pumpStage env st).1).bmeTime = st.bmeTime := by
  unfold pumpStage mqttReconnect publishDiscovery; repeat' split
  all_goals rfl

@[simp] theorem pumpStage_fst_oledTime (env : Env) (st : St) :
    ((pumpStage env st).1).oledTime = st.oledTime := by
  unfold pumpStage mqttReconnect publishDiscovery; repeat' split
  all_goals rfl

@[simp] theorem pumpStage_fst_mqttTime (env : Env) (st : St) :
    ((pumpStage env st).1).mqttTime = st.mqttTime := by
  unfold pumpStage mqttReconnect publishDiscovery; repeat' split
  all_goals rfl

@[simp] theorem pumpStage_fst_wifiReconnectTime (env : Env) (st : St) :
    ((pumpStage env st).1).wifiReconnectTime = st.wifiReconnectTime := by
  unfold pumpStage mqttReconnect publishDiscovery; repeat' split
  all_goals rfl

@[simp] theorem pumpStage_fst_mqttConnected (env : Env) (st : St) :
    ((pumpStage env st).1).mqttConnected =
      (st.mqttConnected || (env.wifiUp && env.connectOk)) := by
  unfold pumpStage mqttReconnect publishDiscovery
  cases hw : env.wifiUp <;> cases hc : st.mqttConnected <;> cases ho : env.connectOk <;> simp_all

@[simp] theorem bmeStage_fst_humid (env : Env) (st : St) :
    ((bmeStage env st).1).humid =
      if dueLoop env.now st.bmeTime bmeDelay = true then env.sHumid else st.humid := by
  unfold bmeStage readBME; split <;> simp_all

@[simp] theorem bmeStage_fst_tempC (env : Env) (st : St) :
    ((bmeStage env st).1).tempC =
      if dueLoop env.now st.bmeTime bmeDelay = true then env.sTempC else st.tempC := by
  unfold bmeStage readBME; split <;> simp_all

@[simp] theorem bmeStage_fst_pressure (env : Env) (st : St) :
    ((bmeStage env st).1).pressure =
      if dueLoop env.now st.bmeTime bmeDelay = true then env.sPressure else st.pressure := by
  unfold bmeStage readBME; split <;> simp_all

@[simp] theorem bmeStage_fst_bmeTime (env : Env) (st : St) :
    ((bmeStage env st).1).bmeTime =
      if dueLoop env.now st.bmeTime bmeDelay = true then env.now else st.bmeTime := by
  unfold bmeStage readBME; split <;> simp_all

@[simp] theorem bmeStage_fst_oledTime (env : Env) (st : St) :
    ((bmeStage env st).1).oledTime = st.oledTime := by
  unfold bmeStage readBME; repeat' split
  all_goals rfl

@[simp] theorem bmeStage_fst_mqttTime (env : Env) (st : St) :
    ((bmeStage env st).1).mqttTime = st.mqttTime := by
  unfold bmeStage readBME; repeat' split
  all_goals rfl

@[simp] theorem bmeStage_fst_wifiReconnectTime (env : Env) (st : St) :
    ((bmeStage env st).1).wifiReconnectTime = st.wifiReconnectTime := by
  unfold bmeStage readBME; repeat' split
  all_goals rfl

@[simp] theorem bmeStage_fst_mqttConnected (env : Env) (st : St) :
    ((bmeStage env st).1).mqttConnected = st.mqttConnected := by
  unfold bmeStage readBME; repeat' split
  all_goals rfl

@[simp] theorem oledStage_fst_humid (env : Env) (st : St) :
    ((oledStage env st).1).humid = st.humid := by
  unfold oledStage; repeat' split
  all_goals rfl

@[simp] theorem oledStage_fst_tempC (env : Env) (st : St) :
    ((oledStage env st).1).tempC = st.tempC := by
  unfold oledStage; repeat' split
  all_goals rfl

@[simp] theorem oledStage_fst_pressure (env : Env) (st : St) :
    ((oledStage env st).1).pressure = st.pressure := by
  unfold oledStage; repeat' split
  all_goals rfl

@[simp] theorem oledStage_fst_bmeTime (env : Env) (st : St) :
    ((oledStage env st).1).bmeTime = st.bmeTime := by
  unfold oledStage; repeat' split
  all_goals rfl

@[simp] theorem oledStage_fst_oledTime (env : Env) (st : St) :
    ((oledStage env st).1).oledTime =
      if dueLoop env.now st.oledTime oledDelay = true then env.now else st.oledTime := by
  unfold oledStage; split <;> simp_all

@[simp] theorem oledStage_fst_mqttTime (env : Env) (st : St) :
    ((oledStage env st).1).mqttTime = st.mqttTime := by
  unfold oledStage; repeat' split
  all_goals rfl

@[simp] theorem oledStage_fst_wifiReconnectTime (env : Env) (st : St) :
    ((oledStage env st).1).wifiReconnectTime = st.wifiReconnectTime := by
  unfold oledStage; repeat' split
  all_goals rfl

@[simp] theorem oledStage_fst_mqttConnected (env : Env) (st : St) :
    ((oledStage env st).1).mqttConnected = st.mqttConnected := by
  unfold oledStage; repeat' split
  all_goals rfl

@[simp] theorem mqttStage_fst_bmeTime (env : Env) (st : St) :
    ((mqttStage env st).1).bmeTime = st.bmeTime := by
  unfold mqttStage publishSensorData; repeat' split
  all_goals rfl

@[simp] theorem mqttStage_fst_oledTime (env : Env) (st : St) :
    ((mqttStage env st).1).oledTime = st.oledTime := by
  unfold mqttStage publishSensorData; repeat' split
  all_goals rfl

@[simp] theorem mqttStage_fst_wifiReconnectTime (env : Env) (st : St) :
    ((mqttStage env st).1).wifiReconnectTime = st.wifiReconnectTime := by
  unfold mqttStage publishSensorData; repeat' split
  all_goals rfl

@[simp] theorem mqttStage_fst_mqttTime (env : Env) (st : St) :
    ((mqttStage env st).1).mqttTime =
      if dueLoop env.now st.mqttTime mqttDelay = true then env.now else st.mqttTime := by
  unfold mqttStage publishSensorData; split <;> simp_all

/-! ## Event lemmas: what each loop stage can emit -/

@[simp] theorem checkWiFi_snd_of_wifiUp (env : Env) (st : St) (h : env.wifiUp = true) :
    (checkWiFi env st).2 = [] := by
  unfold checkWiFi; simp [h]

@[simp] theorem checkWiFi_snd_filter_isPubEv (env : Env) (st : St) :
    ((checkWiFi env st).2).filter isPubEv = [] := by
  unfold checkWiFi; repeat' split
  all_goals rfl

@[simp] theorem checkWiFi_snd_filter_isDiscPub (env : Env) (st : St) :
    ((checkWiFi env st).2).filter isDiscPub = [] := by
  unfold checkWiFi; repeat' split
  all_goals rfl

@[simp] theorem checkWiFi_snd_filter_isStatePub (env : Env) (st : St) :
    ((checkWiFi env st).2).filter isStatePub = [] := by
  unfold checkWiFi; repeat' split
  all_goals rfl

@[simp] theorem checkWiFi_snd_filter_isConnectEv (env : Env) (st : St) :
    ((checkWiFi env st).2).filter isConnectEv = [] := by
  unfold checkWiFi; repeat' split
  all_goals rfl

@[simp] theorem checkWiFi_snd_filter_isDrawEv (env : Env) (st : St) :
    ((checkWiFi env st).2).filter isDrawEv = [] := by
  unfold checkWiFi; repeat' split
  all_goals rfl

@[simp] theorem bmeStage_snd (env : Env) (st : St) : (bmeStage env st).2 = [] := by
  unfold bmeStage; repeat' split
  all_goals rfl

theorem pumpStage_snd_of_wifiDown (env : Env) (st : St) (h : env.wifiUp = false) :
    (pumpStage env st).2 = [] := by
  unfold pumpStage; simp [h]

theorem pumpStage_snd_of_connected (env : Env) (st : St) (h : st.mqttConnected = true) :
    (pumpStage env st).2 = [] := by
  unfold pumpStage mqttReconnect; simp [h]

theorem pumpStage_snd_of_reject (env : Env) (st : St) (h1 : env.wifiUp = true)
    (h2 : st.mqttConnected = false) (h3 : env.connectOk = false) :
    (pumpStage env st).2 =
      [.connect DEVICE_NAME MQTT_USER MQTT_PASSWORD (some (MQTT_AVAILABILITY_TOPIC, "offline"))] := by
  unfold pumpStage mqttReconnect; simp [h1, h2, h3]

theorem pumpStage_snd_of_edge (env : Env) (st : St) (h1 : env.wifiUp = true)
    (h2 : st.mqttConnected = false) (h3 : env.connectOk = true) :
    (pumpStage env st).2 =
      [.connect DEVICE_NAME MQTT_USER MQTT_PASSWORD (some (MQTT_AVAILABILITY_TOPIC, "offline")),
       .pub MQTT_AVAILABILITY_TOPIC "online" true,
       .pub (discTopic "temperature") tempDoc.ser true,
       .pub (discTopic "humidity") humidDoc.ser true,
       .pub (discTopic "pressure") pressDoc.ser true] := by
  unfold pumpStage mqttReconnect publishDiscovery
  simp [h1, h2, h3]

@[simp] theorem pumpStage_snd_filter_isDrawEv (env : Env) (st : St) :
    ((pumpStage env st).2).filter isDrawEv = [] := by
  unfold pumpStage mqttReconnect publishDiscovery; repeat' split
  all_goals rfl

@[simp] theorem pumpStage_snd_filter_isStatePub (env : Env) (st : St) :
    ((pumpStage env st).2).filter isStatePub = [] := by
  unfold pumpStage mqttReconnect publishDiscovery; repeat' split
  all_goals rfl

@[simp] theorem oledStage_snd_filter_isPubEv (env : Env) (st : St) :
    ((oledStage env st).2).filter isPubEv = [] := by
  unfold oledStage printBME; repeat' split
  all_goals rfl

@[simp] theorem oledStage_snd_filter_isDiscPub (env : Env) (st : St) :
    ((oledStage env st).2).filter isDiscPub = [] := by
  unfold oledStage printBME; repeat' split
  all_goals rfl

@[simp] theorem oledStage_snd_filter_isStatePub (env : Env) (st : St) :
    ((oledStage env st).2).filter isStatePub = [] := by
  unfold oledStage printBME; repeat' split
  all_goals rfl

@[simp] theorem oledStage_snd_filter_isConnectEv (env : Env) (st : St) :
    ((oledStage env st).2).filter isConnectEv = [] := by
  unfold oledStage printBME; repeat' split
  all_goals rfl

theorem oledStage_snd_of_due (env : Env) (st : St)
    (h : dueLoop env.now st.oledTime oledDelay = true) :
    (oledStage env st).2 = printBME st := by
  unfold oledStage; simp [h]

theorem mqttStage_snd_of_pub (env : Env) (st : St)
    (hd : dueLoop env.now st.mqttTime mqttDelay = true) (hc : st.mqttConnected = true) :
    (mqttStage env st).2 =
      [.pub MQTT_STATE_TOPIC (statePayload st.tempC st.humid st.pressure) true] := by
  unfold mqttStage publishSensorData; simp [hd, hc]

@[simp] theorem mqttStage_snd_filter_isStatePub (env : Env) (st : St) :
    ((mqttStage env st).2).filter isStatePub = (mqttStage env st).2 := by
  unfold mqttStage publishSensorData; repeat' split
  all_goals rfl

@[simp] theorem mqttStage_snd_filter_isPubEv (env : Env) (st : St) :
    ((mqttStage env st).2).filter isPubEv = (mqttStage env st).2 := by
  unfold mqttStage publishSensorData; repeat' split
  all_goals rfl

@[simp] theorem mqttStage_snd_filter_isDiscPub (env : Env) (st : St) :
    ((mqttStage env st).2).filter isDiscPub = [] := by
  unfold mqttStage publishSensorData; repeat' split
  all_goals rfl

@[simp] theorem mqttStage_snd_filter_isConnectEv (env : Env) (st : St) :
    ((mqttStage env st).2).filter isConnectEv = [] := by
  unfold mqttStage publishSensorData; repeat' split
  all_goals rfl

@[simp] theorem mqttStage_snd_filter_isDrawEv (env : Env) (st : St) :
    ((mqttStage env st).2).filter isDrawEv = [] := by
  unfold mqttStage publishSensorData; repeat' split
  all_goals rfl

/-- The event list of one loop iteration, as the concatenation of the five
stage event lists (the sensor stage emits nothing). -/
theorem loopStep_snd (env : Env) (st : St) :
    (loopStep env st).2 =
      (checkWiFi env (dropStage env st)).2
        ++ (pumpStage env (checkWiFi env (dropStage env st)).1).2
        ++ (oledStage env
              (bmeStage env (pumpStage env (checkWiFi env (dropStage env st)).1).1).1).2
        ++ (mqttStage env
              (oledStage env
                (bmeStage env (pumpStage env (checkWiFi env (dropStage env st)).1).1).1).1).2 := by
  unfold loopStep
  simp

/-! ## C2 -/

/-- C2 counterexample: a reading whose pressure is NaN but whose humidity
and temperature are numeric is NOT treated as invalid: the renderer paints
the three-panel reading layout, not the BME Error banner.  This refutes
the claim that a Reading is invalid iff ANY of the three components is
NaN and that invalid readings always yield the banner. -/
theorem c2_pressure_nan_no_banner_cex :
    (mkSt (.num 50) (.num 20) .nan 0 0 0 0 false false).pressure.isNan = true ∧
    printBME (mkSt (.num 50) (.num 20) .nan 0 0 0 0 false false) =
      [.drawReading (.num 50) (.num 20) .nan] ∧
    printBME (mkSt (.num 50) (.num 20) .nan 0 0 0 0 false false) ≠
      [.drawBanner, .sleep 1000] := by
  refine ⟨rfl, by decide, by decide⟩

/-- C2 amended: the code has no explicit valid flag; a Reading is treated
as invalid exactly when its humidity or its temperature is NaN (the
pressure channel is not tested, main.cpp line 326), and exactly in that
case the renderer paints the single BME Error banner instead of the
three-panel layout. -/
theorem c2_amended_banner_iff_humid_or_temp_nan (st : St) :
    printBME st = [.drawBanner, .sleep 1000] ↔
      (st.humid.isNan || st.tempC.isNan) = true := by
  unfold printBME
  cases h : st.humid.isNan || st.tempC.isNan <;> simp [h]

/-! ## C4 -/

/-- C4 counterexample: the link-retry deadline has no zero special-case
(main.cpp line 114); with its initial value zero and the clock at 5000 ms
(less than the 30000 ms cooldown) the due-check does NOT fire, so a
never-fired link-retry deadline does not fire on the first check; with
WiFi down, checkWiFi issues no re-association and leaves the state
unchanged.  The three loop deadlines do fire at zero. -/
theorem c4_wifi_deadline_zero_not_first_fire_cex :
    dueWifi 5000 0 wifiReconnectDelay = false ∧
    checkWiFi (mkEnv 5000 false false false .nan .nan .nan) st0 = (st0, []) ∧
    dueLoop 5000 0 oledDelay = true := by
  refine ⟨by decide, by decide, by decide⟩

/-- C4 amended: the three loop deadlines (sensor sample, display refresh,
state publish) fire iff unsigned 32-bit now minus deadline is at least the
period OR the deadline is still zero, and are advanced to now when they
fire; the link-retry deadline fires iff unsigned now minus deadline is at
least the period only, with no zero special-case, and is advanced to now
when it fires while WiFi is down. -/
theorem c4_amended_due_semantics (now t period : Nat) (env : Env) (st : St) :
    (dueLoop now t period = true ↔ (period ≤ usub32 now t ∨ t = 0)) ∧
    (dueWifi now t period = true ↔ period ≤ usub32 now t) ∧
    ((loopStep env st).1.bmeTime =
      if dueLoop env.now st.bmeTime bmeDelay = true then env.now else st.bmeTime) ∧
    ((loopStep env st).1.oledTime =
      if dueLoop env.now st.oledTime oledDelay = true then env.now else st.oledTime) ∧
    ((loopStep env st).1.mqttTime =
      if dueLoop env.now st.mqttTime mqttDelay = true then env.now else st.mqttTime) ∧
    ((loopStep env st).1.wifiReconnectTime =
      if (!env.wifiUp && dueWifi env.now st.wifiReconnectTime wifiReconnectDelay) = true
      then env.now else st.wifiReconnectTime) := by
  refine ⟨?_, ?_, ?_, ?_, ?_, ?_⟩
  · unfold dueLoop
    simp
  · unfold dueWifi
    simp
  · simp [loopStep]
  · simp [loopStep]
  · simp [loopStep]
  · simp [loopStep]

/-! ## C6 -/

/-- C6 confirmed: with the reset input low at boot, WiFi associated and
the broker accepting, the reset path connects with plain credentials and
no last-will, publishes an empty retained payload to exactly the eight
topics (three current discovery configs, three legacy discovery configs
temperature_f, pressure_bar, altitude, the state topic and the
availability topic) and ends in a reboot. -/
theorem c6_reset_clears_eight_topics :
    (setupResetPhase true true true).filter isPubEv =
      [.pub (discTopic "temperature") "" true,
       .pub (discTopic "humidity") "" true,
       .pub (discTopic "pressure") "" true,
       .pub (discTopic "temperature_f") "" true,
       .pub (discTopic "pressure_bar") "" true,
       .pub (discTopic "altitude") "" true,
       .pub MQTT_STATE_TOPIC "" true,
       .pub MQTT_AVAILABILITY_TOPIC "" true] ∧
    (setupResetPhase true true true).filter isConnectEv =
      [.connect DEVICE_NAME MQTT_USER MQTT_PASSWORD none] ∧
    (setupResetPhase true true true).getLast? = some .restart := by
  refine ⟨?_, ?_, ?_⟩ <;> rfl

/-! ## C7 -/

/-- C7 counterexample: the unique_id emitted for the temperature
sub-sensor is the fixed firmware string xiao_weather_temperature, and the
node id pc_xiaoc3_weather does not occur in it, so the unique_id is not
derived from the node id. -/
theorem c7_unique_id_not_from_node_id_cex :
    lookupStr tempDoc "unique_id" = some "xiao_weather_temperature" ∧
    containsSeq DEVICE_NAME.toList "xiao_weather_temperature".toList = false := by
  refine ⟨rfl, by decide⟩

/-- The discovery payload schema shared by the three sub-sensors: every
key the spec lists, with unique_id built from the fixed firmware stem
xiao_weather_ and the logical key (not from the node id). -/
def schemaOk (d : JVal) (key nm unit : String) : Prop :=
  lookupStr d "name" = some nm ∧
  lookupStr d "unique_id" = some ("xiao_weather_" ++ key) ∧
  lookupStr d "state_topic" = some MQTT_STATE_TOPIC ∧
  lookupStr d "availability_topic" = some MQTT_AVAILABILITY_TOPIC ∧
  lookupStr d "payload_available" = some "online" ∧
  lookupStr d "payload_not_available" = some "offline" ∧
  lookupStr d "value_template" = some ("\x7b\x7b value_json." ++ key ++ " \x7d\x7d") ∧
  lookupStr d "unit_of_measurement" = some unit ∧
  lookupStr d "device_class" = some key ∧
  lookupStr d "state_class" = some "measurement" ∧
  d.lookupKey "device" = some deviceObj

/-- C7 amended: every discovery payload contains the keys name,
state_topic (equal to the state topic), availability_topic,
payload_available online, payload_not_available offline, a value_template
extracting the per-sub-sensor field, unit_of_measurement, device_class,
state_class measurement, and the nested device object with identifiers,
name, model and manufacturer; the unique_id however is the fixed firmware
stem xiao_weather_ plus the logical key, not a string derived from the
node id. -/
theorem c7_amended_discovery_schema :
    schemaOk tempDoc "temperature" "Temperature" "°C" ∧
    schemaOk humidDoc "humidity" "Humidity" "%" ∧
    schemaOk pressDoc "pressure" "Pressure" "hPa" ∧
    lookupStr deviceObj "name" = some DEVICE_FRIENDLY_NAME ∧
    lookupStr deviceObj "model" = some "XIAO ESP32-C3 + BME280" ∧
    lookupStr deviceObj "manufacturer" = some "Seeed Studio" ∧
    deviceObj.lookupKey "identifiers" = some (.jarr [.jstr DEVICE_NAME]) := by
  refine ⟨?_, ?_, ?_, rfl, rfl, rfl, rfl⟩ <;>
    exact ⟨rfl, rfl, rfl, rfl, rfl, rfl, rfl, rfl, rfl, rfl, rfl⟩

/-! ## C8 -/

/-- C8 confirmed: a state publish (session connected) is a single retained
publish to the state topic whose payload has exactly the fields
temperature, humidity, pressure rounded to one decimal by the C round
(half away from zero); at the triple t=23.449, h=41.25, p=1013.249 the
payload is exactly the claimed string (41.25 rounds up to 41.3: half away
from zero, not bankers rounding). -/
theorem c8_state_payload_rounding (st : St) (h1 : st.mqttConnected = true) :
    publishSensorData st =
      [.pub MQTT_STATE_TOPIC (statePayload st.tempC st.humid st.pressure) true] ∧
    statePayload (.num (23449/1000)) (.num (165/4)) (.num (1013249/1000)) =
      "\x7b\"temperature\":23.4,\"humidity\":41.3,\"pressure\":1013.2\x7d" := by
  constructor
  · unfold publishSensorData
    simp [h1]
  · have r1 : roundQ ((23449/1000 : ℚ) * 10) = 234 := by
      norm_num [roundQ, ratFloor]
      all_goals decide
    have r2 : roundQ ((165/4 : ℚ) * 10) = 413 := by
      norm_num [roundQ, ratFloor]
    have r3 : roundQ ((1013249/1000 : ℚ) * 10) = 10132 := by
      norm_num [roundQ, ratFloor]
      all_goals decide
    simp only [statePayload, fmt1]
    rw [r1, r2, r3]
    decide

/-- C8 witness: evaluation at the concrete triple of scenario S6. -/
theorem c8_state_payload_rounding_witness :
    (mkSt (.num (165/4)) (.num (23449/1000)) (.num (1013249/1000)) 0 0 0 0 false true).mqttConnected
        = true ∧
    publishSensorData
        (mkSt (.num (165/4)) (.num (23449/1000)) (.num (1013249/1000)) 0 0 0 0 false true) =
      [.pub MQTT_STATE_TOPIC
        (statePayload (.num (23449/1000)) (.num (165/4)) (.num (1013249/1000))) true] ∧
    statePayload (.num (23449/1000)) (.num (165/4)) (.num (1013249/1000)) =
      "\x7b\"temperature\":23.4,\"humidity\":41.3,\"pressure\":1013.2\x7d" :=
  ⟨rfl,
   (c8_state_payload_rounding
      (mkSt (.num (165/4)) (.num (23449/1000)) (.num (1013249/1000)) 0 0 0 0 false true) rfl).1,
   (c8_state_payload_rounding
      (mkSt (.num (165/4)) (.num (23449/1000)) (.num (1013249/1000)) 0 0 0 0 false true) rfl).2⟩

/-! ## C9 -/

/-- C9 counterexample: rendering an invalid Reading DOES sleep: the error
branch of the renderer delays 1000 ms (main.cpp line 331), and a loop
iteration that renders a NaN reading therefore contains a 1000 ms sleep,
far beyond a few milliseconds.  This refutes the claim that the renderer
never blocks beyond a frame flush and that an invalid Reading introduces
no sleep. -/
theorem c9_error_banner_sleeps_cex :
    printBME (mkSt .nan (.num 20) (.num 1000) 0 0 0 0 false false) =
      [.drawBanner, .sleep 1000] ∧
    Ev.sleep 1000 ∈ (loopStep (mkEnv 5000 false false false .nan (.num 20) (.num 1000)) st0).2 := by
  refine ⟨by decide, by decide⟩

/-- C9 amended: rendering a valid Reading emits only the three-panel draw
and no sleep; rendering an invalid Reading paints the banner and sleeps
exactly 1000 ms. -/
theorem c9_amended_renderer_blocking (st : St) :
    ((st.humid.isNan || st.tempC.isNan) = false →
      printBME st = [.drawReading st.humid st.tempC st.pressure]) ∧
    ((st.humid.isNan || st.tempC.isNan) = true →
      printBME st = [.drawBanner, .sleep 1000]) := by
  unfold printBME
  constructor <;> intro h <;> simp [h]

/-- C9 witness: both branches evaluated at concrete readings. -/
theorem c9_amended_renderer_blocking_witness :
    printBME (mkSt (.num 40) (.num 20) (.num 1000) 0 0 0 0 false false) =
      [.drawReading (.num 40) (.num 20) (.num 1000)] ∧
    printBME (mkSt .nan (.num 21) (.num 1001) 0 0 0 0 false false) =
      [.drawBanner, .sleep 1000] :=
  ⟨(c9_amended_renderer_blocking (mkSt (.num 40) (.num 20) (.num 1000) 0 0 0 0 false false)).1 rfl,
   (c9_amended_renderer_blocking (mkSt .nan (.num 21) (.num 1001) 0 0 0 0 false false)).2 rfl⟩

/-! ## C1 -/

/-- C1 counterexample: at t = 5000 the sensor returns NaN on every
channel, the session comes up in the same iteration, and the state-publish
deadline fires: the iteration DOES publish a state payload (with null
fields) to the state topic, so the publish is not skipped for an invalid
Reading.  publishSensorData (main.cpp lines 265-279) contains no validity
check. -/
theorem c1_invalid_reading_still_published_cex :
    Ev.pub MQTT_STATE_TOPIC (statePayload .nan .nan .nan) true ∈
      (loopStep (mkEnv 5000 true true true .nan .nan .nan) st0).2 := by
  decide

/-- C1 amended: when the state-publish deadline fires with the session
connected, the iteration publishes the current reading retained to the
state topic regardless of validity; NaN channels serialise as null.  (The
sensor-not-due hypothesis pins the published values to the stored ones.) -/
theorem c1_amended_invalid_not_skipped (env : Env) (st : St)
    (hc : st.mqttConnected = true) (hs : env.stillConnected = true)
    (hm : dueLoop env.now st.mqttTime mqttDelay = true)
    (hb : dueLoop env.now st.bmeTime bmeDelay = false) :
    (loopStep env st).2.filter isStatePub =
      [.pub MQTT_STATE_TOPIC (statePayload st.tempC st.humid st.pressure) true] := by
  rw [loopStep_snd]
  simp [List.filter_append, mqttStage, publishSensorData, isStatePub, hc, hs, hm, hb]

/-- C1 witness: a NaN reading held in the cell is published anyway. -/
theorem c1_amended_invalid_not_skipped_witness :
    dueLoop 11000 500 mqttDelay = true ∧
    (mkSt .nan .nan (.num 1000) 0 10990 500 0 true true).humid.isNan = true ∧
    (loopStep (mkEnv 11000 false false true .nan .nan .nan)
        (mkSt .nan .nan (.num 1000) 0 10990 500 0 true true)).2.filter isStatePub =
      [.pub MQTT_STATE_TOPIC (statePayload .nan .nan (.num 1000)) true] :=
  ⟨by decide, rfl,
   c1_amended_invalid_not_skipped (mkEnv 11000 false false true .nan .nan .nan)
     (mkSt .nan .nan (.num 1000) 0 10990 500 0 true true) rfl rfl (by decide) (by decide)⟩

/-! ## C3 -/

/-- C3 confirmed: discovery publishes occur only in an iteration with a
Connecting-to-Connected edge; in such an iteration the publish events on
the wire are exactly the retained availability online publish followed by
one non-empty retained publish to each of the three discovery config
topics, followed only by whatever state publishes the same iteration
emits; state publishes of later iterations of the session follow in trace
order, so the online publish precedes every discovery publish, which
precedes the first state publish of the session, and each topic gets
exactly one discovery publish per Connected lifetime. -/
theorem c3_discovery_once_per_session_ordered (env : Env) (st : St) :
    (connEdge env st = false → (loopStep env st).2.filter isDiscPub = []) ∧
    (connEdge env st = true →
      (loopStep env st).2.filter isPubEv =
        .pub MQTT_AVAILABILITY_TOPIC "online" true ::
        .pub (discTopic "temperature") tempDoc.ser true ::
        .pub (discTopic "humidity") humidDoc.ser true ::
        .pub (discTopic "pressure") pressDoc.ser true ::
        (loopStep env st).2.filter isStatePub) ∧
    tempDoc.ser ≠ "" ∧ humidDoc.ser ≠ "" ∧ pressDoc.ser ≠ "" := by
  refine ⟨?_, ?_, by decide, by decide, by decide⟩
  · intro h
    rw [loopStep_snd]
    simp only [List.filter_append, checkWiFi_snd_filter_isDiscPub,
      oledStage_snd_filter_isDiscPub, mqttStage_snd_filter_isDiscPub,
      List.append_nil, List.nil_append]
    cases hw : env.wifiUp
    · rw [pumpStage_snd_of_wifiDown _ _ hw]
      rfl
    · cases hc : st.mqttConnected && env.stillConnected
      · cases ho : env.connectOk
        · rw [pumpStage_snd_of_reject _ _ hw (by simp [hc]) ho]
          rfl
        · exfalso
          unfold connEdge at h
          rw [hw, hc, ho] at h
          simp at h
      · rw [pumpStage_snd_of_connected _ _ (by simp [hc])]
        rfl
  · intro h
    have hw : env.wifiUp = true := by
      revert h
      unfold connEdge
      cases env.wifiUp <;> simp
    have ho : env.connectOk = true := by
      revert h
      unfold connEdge
      cases env.connectOk <;> simp
    have hcs : (st.mqttConnected && env.stillConnected) = false := by
      revert h
      unfold connEdge
      cases st.mqttConnected && env.stillConnected <;> simp
    rw [loopStep_snd]
    rw [pumpStage_snd_of_edge _ _ hw (by simp [hcs]) ho]
    simp [List.filter_append, hw, isPubEv, isStatePub,
      beq_avail_state, beq_discT_state, beq_discH_state, beq_discP_state]

/-- C3 witness: a non-edge iteration emits no discovery publish, and an
edge iteration from boot state emits exactly the ordered publish list. -/
theorem c3_discovery_once_per_session_ordered_witness :
    connEdge (mkEnv 700 false false false (.num 1) (.num 2) (.num 3)) st0 = false ∧
    (loopStep (mkEnv 700 false false false (.num 1) (.num 2) (.num 3)) st0).2.filter isDiscPub
      = [] ∧
    connEdge (mkEnv 800 true true true (.num 1) (.num 2) (.num 3)) st0 = true ∧
    (loopStep (mkEnv 800 true true true (.num 1) (.num 2) (.num 3)) st0).2.filter isPubEv =
      .pub MQTT_AVAILABILITY_TOPIC "online" true ::
      .pub (discTopic "temperature") tempDoc.ser true ::
      .pub (discTopic "humidity") humidDoc.ser true ::
      .pub (discTopic "pressure") pressDoc.ser true ::
      (loopStep (mkEnv 800 true true true (.num 1) (.num 2) (.num 3)) st0).2.filter isStatePub :=
  ⟨by decide,
   (c3_discovery_once_per_session_ordered
      (mkEnv 700 false false false (.num 1) (.num 2) (.num 3)) st0).1 (by decide),
   by decide,
   (c3_discovery_once_per_session_ordered
      (mkEnv 800 true true true (.num 1) (.num 2) (.num 3)) st0).2.1 (by decide)⟩

/-! ## C5 -/

/-- C5 counterexample: with the link up and the broker rejecting, the
runtime issues a broker connect attempt on two consecutive iterations
1 ms apart: mqttReconnect (main.cpp lines 231-263) has no internal rate
limiting, so consecutive attempts are NOT separated by the 30000 ms retry
cooldown (which gates only WiFi re-association). -/
theorem c5_no_internal_cooldown_cex :
    attemptTimes (run [mkEnv 1000 true false true (.num 1) (.num 2) (.num 3),
                       mkEnv 1001 true false true (.num 1) (.num 2) (.num 3)] st0).2 =
      [1000, 1001] ∧
    ¬ (30000 ≤ 1001 - 1000) := by
  refine ⟨by decide, by decide⟩

/-- C5 amended: at most one broker connect attempt per loop iteration, and
exactly one whenever the link is up and the session is not connected; the
attempts are not rate limited, one can occur on every iteration. -/
theorem c5_amended_one_attempt_per_tick (env : Env) (st : St) :
    ((loopStep env st).2.filter isConnectEv).length ≤ 1 ∧
    (env.wifiUp = true → (st.mqttConnected && env.stillConnected) = false →
      ((loopStep env st).2.filter isConnectEv).length = 1) := by
  rw [loopStep_snd]
  simp only [List.filter_append, checkWiFi_snd_filter_isConnectEv,
    oledStage_snd_filter_isConnectEv, mqttStage_snd_filter_isConnectEv,
    List.append_nil, List.nil_append]
  cases hw : env.wifiUp
  · rw [pumpStage_snd_of_wifiDown _ _ hw]
    simp
  · cases hc : st.mqttConnected && env.stillConnected
    · cases ho : env.connectOk
      · rw [pumpStage_snd_of_reject _ _ hw (by simp [hc]) ho]
        simp [isConnectEv]
      · rw [pumpStage_snd_of_edge _ _ hw (by simp [hc]) ho]
        simp [isConnectEv, List.filter]
    · rw [pumpStage_snd_of_connected _ _ (by simp [hc])]
      simp

/-- C5 witness: exactly one attempt in an eligible iteration. -/
theorem c5_amended_one_attempt_per_tick_witness :
    ((loopStep (mkEnv 1000 true false true (.num 1) (.num 2) (.num 3)) st0).2.filter
        isConnectEv).length = 1 :=
  (c5_amended_one_attempt_per_tick
    (mkEnv 1000 true false true (.num 1) (.num 2) (.num 3)) st0).2 rfl rfl

/-! ## C10 -/

/-- C10 confirmed: in any iteration where the sensor deadline fires (it
always does with the zero-initialised boot value, as the last conjuncts
state) and the display deadline fires, the sensor stage runs first and the
single draw event of the iteration shows exactly the values sampled in
that same iteration, never the previously stored (zero-initialised)
cell values. -/
theorem c10_sample_before_display (env : Env) (st : St)
    (hvH : env.sHumid.isNan = false) (hvT : env.sTempC.isNan = false)
    (hb : dueLoop env.now st.bmeTime bmeDelay = true)
    (ho : dueLoop env.now st.oledTime oledDelay = true) :
    (loopStep env st).2.filter isDrawEv =
      [.drawReading env.sHumid env.sTempC env.sPressure] ∧
    dueLoop env.now 0 bmeDelay = true ∧ dueLoop env.now 0 oledDelay = true := by
  refine ⟨?_, by simp [dueLoop], by simp [dueLoop]⟩
  rw [loopStep_snd]
  simp only [List.filter_append, checkWiFi_snd_filter_isDrawEv,
    pumpStage_snd_filter_isDrawEv, mqttStage_snd_filter_isDrawEv,
    List.append_nil, List.nil_append]
  have h3 : dueLoop env.now
      ((bmeStage env
        (pumpStage env (checkWiFi env (dropStage env st)).1).1).1).oledTime oledDelay = true := by
    simpa using ho
  rw [oledStage_snd_of_due _ _ h3]
  simp [printBME, hb, hvH, hvT, isDrawEv]

/-- C10 witness: first iteration from boot state; the cell starts at zero
but the draw shows the values sampled in the same iteration. -/
theorem c10_sample_before_display_witness :
    st0.humid = FVal.num 0 ∧
    (loopStep (mkEnv 5 false false false (.num 40) (.num 20) (.num 1000)) st0).2.filter
        isDrawEv =
      [.drawReading (.num 40) (.num 20) (.num 1000)] :=
  ⟨rfl,
   (c10_sample_before_display (mkEnv 5 false false false (.num 40) (.num 20) (.num 1000)) st0
      rfl rfl (by decide) (by decide)).1⟩

end XiaoWeather
